import Mathlib

/-!
Verification of the `LocalDataStore` key-value store (`src/app.py`).
The store keeps an in-memory mapping from string keys to entries
(`{"value": ..., "expiry": ...}`), persists the whole mapping as one JSON
document after every mutation, and supports create / read / batch-create
with optional TTL expiry.
-/

namespace KVStore

/-- JSON-serializable values, the payload type of the store
(Python `Dict` values passed to `json.dumps`). Numbers are modelled as
integers. -/
inductive Json where
  | null
  | bool (b : Bool)
  | num (n : Int)
  | str (s : String)
  | arr (elems : List Json)
  | obj (fields : List (String × Json))

/-- One hexadecimal digit, lowercase, as produced by Python `json.dumps`
in `\uXXXX` escapes. -/
def hexDigit (n : Nat) : Char :=
  if n < 10 then Char.ofNat (48 + n) else Char.ofNat (87 + n)

/-- A `\uXXXX` escape of a code point at most 0xFFFF. -/
def uEscape4 (n : Nat) : String :=
  "\\u" ++ String.mk [hexDigit (n / 4096 % 16), hexDigit (n / 256 % 16),
    hexDigit (n / 16 % 16), hexDigit (n % 16)]

/-- The escape sequence Python `json.dumps` (with its default
`ensure_ascii=True`) emits for one character of a string. -/
def jsonEscapeChar (c : Char) : String :=
  if c = '\x22' then "\\\x22"
  else if c = '\\' then "\\\\"
  else if c = '\x08' then "\\b"
  else if c = '\x09' then "\\t"
  else if c = '\x0a' then "\\n"
  else if c = '\x0c' then "\\f"
  else if c = '\x0d' then "\\r"
  else if c.toNat < 32 then uEscape4 c.toNat
  else if c.toNat ≤ 126 then Char.toString c
  else if c.toNat ≤ 0xFFFF then uEscape4 c.toNat
  else
    uEscape4 (0xD800 + (c.toNat - 0x10000) / 1024) ++
      uEscape4 (0xDC00 + (c.toNat - 0x10000) % 1024)

/-- Escape a whole string for JSON serialization. -/
def jsonEscape (s : String) : String :=
  String.join (s.toList.map jsonEscapeChar)

mutual
/-- `json.dumps` with Python's defaults (separators `", "` and `": "`,
`ensure_ascii=True`); the store uses its length for the value-size check. -/
def dumps : Json → String
  | .null => "null"
  | .bool true => "true"
  | .bool false => "false"
  | .num n => toString n
  | .str s => "\x22" ++ jsonEscape s ++ "\x22"
  | .arr xs => "[" ++ String.intercalate ", " (dumpsList xs) ++ "]"
  | .obj fs => "\x7b" ++ String.intercalate ", " (dumpsFields fs) ++ "\x7d"

/-- Serialize each element of a JSON array. -/
def dumpsList : List Json → List String
  | [] => []
  | x :: xs => dumps x :: dumpsList xs

/-- Serialize each `"key": value` member of a JSON object. -/
def dumpsFields : List (String × Json) → List String
  | [] => []
  | (k, v) :: fs => ("\x22" ++ jsonEscape k ++ "\x22: " ++ dumps v) :: dumpsFields fs
end

/-- The size/length constants of `LocalDataStore`. `MAX_FILE_SIZE` is 1 GiB. -/
def MAX_FILE_SIZE : Nat := 1 * 1024 * 1024 * 1024

/-- Maximum key length (characters). -/
def MAX_KEY_LENGTH : Nat := 32

/-- Maximum serialized value size (16 KiB). -/
def MAX_VALUE_SIZE : Nat := 16 * 1024

/-- Maximum number of key-value pairs in one batch operation. -/
def BATCH_LIMIT : Nat := 100

/-- `int(MAX_FILE_SIZE * 0.9)`: capacity ceiling for the serialized store. -/
def MAX_DATA_CAPACITY : Nat := MAX_FILE_SIZE * 9 / 10

/-- One stored entry: `\x7b"value": value, "expiry": expiry\x7d`. `expiry` is
`none` (Python `None`) or an absolute timestamp. Timestamps are modelled as
integers. -/
structure Entry where
  value : Json
  expiry : Option Int

/-- The in-memory mapping `self.data`: a Python dict from key to entry,
modelled as an insertion-ordered association list. -/
abbrev Data := List (String × Entry)

/-- Dict assignment `self.data[key] = e`: replace in place when the key is
present, otherwise append in insertion order. -/
def Data.set (d : Data) (key : String) (e : Entry) : Data :=
  if (List.lookup key d).isSome then
    List.map (fun p => if p.1 == key then (key, e) else p) d
  else
    d ++ [(key, e)]

/-- Dict deletion `del self.data[key]`. -/
def Data.erase (d : Data) (key : String) : Data :=
  List.filter (fun p => p.1 != key) d

/-- The error taxonomy of `app.py` (subclasses of `DataStoreError`). -/
inductive DSError where
  | keyExists (key : String)
  | keyNotFound (key : String)
  | keyTooLong
  | valueTooLarge
  | invalidJSON
  | fileSizeLimitExceeded
deriving DecidableEq

/-- The message attached to each raised exception (`str(e)`), as built by the
f-strings in `app.py`. -/
def DSError.message : DSError → String
  | .keyExists key =>
      "Error: The key \x27" ++ key ++ "\x27 already exists in the data store."
  | .keyNotFound key => "Error: Key \x27" ++ key ++ "\x27 not found."
  | .keyTooLong =>
      "Error: The key length exceeds the maximum limit of " ++
        toString MAX_KEY_LENGTH ++ " characters."
  | .valueTooLarge =>
      "Error: The value size exceeds the maximum limit of " ++
        toString MAX_VALUE_SIZE ++ " bytes."
  | .invalidJSON => "Error: The data file contains invalid JSON."
  | .fileSizeLimitExceeded =>
      "Error: Data store capacity exceeded. Delete some entries to free up space."

/-- Content of a backing file: either a document that parses to a store
mapping, or bytes that fail `json.load`. -/
inductive Doc where
  | valid (d : Data)
  | invalid (raw : String)

/-- The on-disk state the store touches: the backing file at
`self.file_path` and the file at `self.file_path + ".backup"`; `none` means
the file does not exist. -/
structure FS where
  main : Option Doc
  backup : Option Doc

/-- `save_data`: write the full serialized document to the backing file
(whole-file replace). -/
def FS.save (fs : FS) (d : Data) : FS :=
  { fs with main := some (Doc.valid d) }

/-- The state of a `LocalDataStore`: the in-memory dict plus the on-disk
files. -/
structure Store where
  data : Data
  fs : FS

/-- `load_data`: read the backing file. Missing file: initialize empty and
persist. Parse failure: move the file to `<path>.backup` (overwriting any
prior backup), reset to an empty store, persist it, and raise
`InvalidJSONError`. Returns the loaded dict, the resulting file state, and
the raised error if any. -/
def load_data (fs : FS) : Data × FS × Option DSError :=
  match fs.main with
  | none => ([], FS.save fs [], none)
  | some (Doc.valid d) => (d, fs, none)
  | some (Doc.invalid raw) =>
      let fs1 : FS := { main := none, backup := some (Doc.invalid raw) }
      ([], FS.save fs1 [], some DSError.invalidJSON)

/-- `is_key_expired(key)`: pure expiry check against the current time; a
missing key or a `None` expiry is never expired, otherwise expired exactly
when `expiry < now`. -/
def is_key_expired (d : Data) (key : String) (now : Int) : Bool :=
  match List.lookup key d with
  | none => false
  | some item =>
      match item.expiry with
      | none => false
      | some t => decide (t < now)

/-- `create(key, value, ttl)`: fail with `KeyExists` if the key is present,
then with `KeyTooLong` if the key exceeds `MAX_KEY_LENGTH`, then with
`ValueTooLarge` if `len(json.dumps(value))` exceeds `MAX_VALUE_SIZE`;
otherwise compute the expiry (`time.time() + ttl` when `ttl` is truthy,
else `None`), store the entry and persist. -/
def create (s : Store) (key : String) (value : Json) (ttl : Option Int)
    (now : Int) : Except DSError Store :=
  if (List.lookup key s.data).isSome then
    .error (.keyExists key)
  else if key.length > MAX_KEY_LENGTH then
    .error .keyTooLong
  else if (dumps value).length > MAX_VALUE_SIZE then
    .error .valueTooLarge
  else
    let expiry : Option Int :=
      match ttl with
      | some t => if t == 0 then none else some (now + t)
      | none => none
    let newData := Data.set s.data key ⟨value, expiry⟩
    .ok { data := newData, fs := FS.save s.fs newData }

/-- The dict `read` returns: `\x7b"status": "error", "message": ...\x7d` or
`\x7b"status": "success", "value": ...\x7d`. -/
inductive ReadResult where
  | error (message : String)
  | success (value : Json)

/-- `read(key)`: return the not-found error when the key is absent or
`is_key_expired` holds, else success with the stored value. The store state
is returned unchanged: `read` performs no deletion and no persistence. -/
def read (s : Store) (key : String) (now : Int) : ReadResult × Store :=
  match List.lookup key s.data with
  | none => (.error ("Key \x27" ++ key ++ "\x27 not found."), s)
  | some item =>
      if is_key_expired s.data key now then
        (.error ("Key \x27" ++ key ++ "\x27 not found."), s)
      else
        (.success item.value, s)

/-- The list-comprehension filter of `cleanup_expired_keys`:
`data["expiry"] and data["expiry"] < current_time` (a `None` or zero expiry
is falsy in Python). -/
def expiredForCleanup (now : Int) (e : Entry) : Bool :=
  match e.expiry with
  | none => false
  | some t => (t != 0) && decide (t < now)

/-- The dict left by `cleanup_expired_keys`: collect the expired keys, then
delete each of them. -/
def cleanupData (d : Data) (now : Int) : Data :=
  (List.map Prod.fst (List.filter (fun p => expiredForCleanup now p.2) d)).foldl
    Data.erase d

/-- `cleanup_expired_keys`: remove all expired entries and persist once for
the whole batch. -/
def cleanup_expired_keys (s : Store) (now : Int) : Store :=
  { data := cleanupData s.data now, fs := FS.save s.fs (cleanupData s.data now) }

/-- The value `batch_create` returns: either the batch-limit error dict
(only `status`/`message` keys), or the report dict with the succeeded keys
and the per-key error-message map. -/
inductive BatchResult where
  | limitError (message : String)
  | report (status : String) (message : String) (created : List String)
      (errors : List (String × String))

/-- The `for key, value in kv_pairs.items()` loop of `batch_create`: attempt
`create` per pair, appending the key to `created` on success and recording
`str(e)` in `errors` on a `DataStoreError`, never aborting the loop. -/
def batchLoop (ttl : Option Int) (now : Int) :
    Store → List (String × Json) → List String → List (String × String) →
    Store × List String × List (String × String)
  | st, [], created, errors => (st, created, errors)
  | st, p :: rest, created, errors =>
      match create st p.1 p.2 ttl now with
      | .ok st2 => batchLoop ttl now st2 rest (created ++ [p.1]) errors
      | .error e => batchLoop ttl now st rest created (errors ++ [(p.1, e.message)])

/-- `batch_create(kv_pairs, ttl)`: reject the whole batch when the pair
count exceeds `BATCH_LIMIT`, otherwise run the create loop and report
`"partial_success"` when the error map is non-empty, `"success"` otherwise. -/
def batch_create (s : Store) (kv_pairs : List (String × Json))
    (ttl : Option Int) (now : Int) : BatchResult × Store :=
  if kv_pairs.length > BATCH_LIMIT then
    (.limitError ("Batch limit exceeded. Maximum " ++ toString BATCH_LIMIT ++
      " pairs allowed."), s)
  else
    match batchLoop ttl now s kv_pairs [] [] with
    | (st, created, errors) =>
        if errors.isEmpty then
          (.report "success" "Batch creation successful." created errors, st)
        else
          (.report "partial_success" "Batch creation completed with some errors."
            created errors, st)

/-- The expiry recorded for `key` by a successful `create` result. -/
def storedExpiry (r : Except DSError Store) (key : String) : Option (Option Int) :=
  match r with
  | .ok s2 => (List.lookup key s2.data).map Entry.expiry
  | .error _ => none

/-- An on-disk state holding a persisted empty store. -/
def fs0 : FS := { main := some (Doc.valid []), backup := none }

/-- The empty store over `fs0`. -/
def store0 : Store := { data := [], fs := fs0 }

/-- A store holding an entry that expired at time 5 (checked at time 10). -/
def c1Store : Store := { data := [("k", ⟨Json.null, some 5⟩)], fs := fs0 }

/-- A 33-character key. -/
def key33 : String := "xxxxxxxxxxxxxxxxxxxxxxxxxxxxxxxxx"

/-- A 32-character key. -/
def key32 : String := "xxxxxxxxxxxxxxxxxxxxxxxxxxxxxxxx"

/-- A store already holding the over-long key `key33` (for example loaded
from a backing file written by another producer). -/
def c3Store : Store := { data := [(key33, ⟨Json.null, none⟩)], fs := fs0 }

/-- A store already holding key `"B"` (non-expired). -/
def exStoreB : Store := { data := [("B", ⟨Json.null, none⟩)], fs := fs0 }

/-- A batch of 101 distinct keys. -/
def pairs101 : List (String × Json) :=
  (List.range 101).map (fun i => (toString i, Json.null))

/-- A store holding one entry with expiry 5 (for the C10 witness). -/
def c10Store : Store := { data := [("k", ⟨Json.null, some 5⟩)], fs := fs0 }

/-- Dict assignment on an absent key appends the pair at the end. -/
theorem Data.set_of_absent (d : Data) (key : String) (e : Entry)
    (h : List.lookup key d = none) : Data.set d key e = d ++ [(key, e)] := by
  simp [Data.set, h]

/-- Membership after erasing a list of keys one by one. -/
theorem mem_foldl_erase (ks : List String) (d : Data) (p : String × Entry) :
    p ∈ ks.foldl Data.erase d ↔ p ∈ d ∧ p.1 ∉ ks := by
  induction ks generalizing d with
  | nil => simp
  | cons k ks ih =>
      simp only [List.foldl_cons, ih, Data.erase, List.mem_filter,
        bne_iff_ne, ne_eq, List.mem_cons]
      tauto

/-- After one cleanup pass no entry still satisfies the cleanup filter. -/
theorem cleanupData_no_expired (d : Data) (now : Int) :
    List.filter (fun p => expiredForCleanup now p.2) (cleanupData d now) = [] := by
  rw [List.filter_eq_nil_iff]
  intro p hp hpe
  simp only [cleanupData, mem_foldl_erase] at hp
  exact hp.2 (List.mem_map.mpr ⟨p, List.mem_filter.mpr ⟨hp.1, hpe⟩, rfl⟩)

/-- Cleanup leaves a dict with no expired entries unchanged. -/
theorem cleanupData_of_no_expired (d : Data) (now : Int)
    (h : List.filter (fun p => expiredForCleanup now p.2) d = []) :
    cleanupData d now = d := by
  simp only [cleanupData, h, List.map_nil, List.foldl_nil]

/-- The dict computed by cleanup is a fixed point of cleanup at the same
time. -/
theorem cleanupData_idem (d : Data) (now : Int) :
    cleanupData (cleanupData d now) now = cleanupData d now :=
  cleanupData_of_no_expired _ now (cleanupData_no_expired d now)

/-- The batch loop extends the accumulators: every input pair's key ends up
either appended to the succeeded list or as a key of the error map, and
exactly one of the two happens per pair. -/
theorem batchLoop_spec (ttl : Option Int) (now : Int)
    (pairs : List (String × Json)) :
    ∀ (st : Store) (created : List String) (errors : List (String × String)),
    ∃ st2 cExt eExt,
      batchLoop ttl now st pairs created errors =
        (st2, created ++ cExt, errors ++ eExt) ∧
      (∀ p ∈ pairs, p.1 ∈ cExt ∨ p.1 ∈ List.map Prod.fst eExt) ∧
      cExt.length + eExt.length = pairs.length := by
  induction pairs with
  | nil =>
      intro st created errors
      exact ⟨st, [], [], by simp [batchLoop], by simp, by simp⟩
  | cons p rest ih =>
      intro st created errors
      cases hc : create st p.1 p.2 ttl now with
      | ok st2 =>
          obtain ⟨st3, cE, eE, heq, hmem, hlen⟩ := ih st2 (created ++ [p.1]) errors
          refine ⟨st3, p.1 :: cE, eE, ?_, ?_, ?_⟩
          · rw [batchLoop, hc]
            simp [heq]
          · intro q hq
            rcases List.mem_cons.mp hq with hq | hq
            · left; rw [hq]; exact List.mem_cons_self _ _
            · rcases hmem q hq with h | h
              · left; exact List.mem_cons_of_mem _ h
              · right; exact h
          · simp only [List.length_cons]
            omega
      | error e =>
          obtain ⟨st3, cE, eE, heq, hmem, hlen⟩ :=
            ih st created (errors ++ [(p.1, DSError.message e)])
          refine ⟨st3, cE, (p.1, DSError.message e) :: eE, ?_, ?_, ?_⟩
          · rw [batchLoop, hc]
            simp [heq]
          · intro q hq
            rcases List.mem_cons.mp hq with hq | hq
            · right
              rw [hq]
              exact List.mem_map.mpr
                ⟨(p.1, DSError.message e), List.mem_cons_self _ _, rfl⟩
            · rcases hmem q hq with h | h
              · left; exact h
              · right
                simp only [List.map_cons]
                exact List.mem_cons_of_mem _ h
          · simp only [List.length_cons]
            omega

/-- Claim C1: the code diverges from the claim. For the store `c1Store`
holding key `"k"` with expiry 5, at time 10 the key counts as expired, yet
`read` returns the same `"Key 'k' not found."` error it returns for a key
that was never created, and it returns the store unchanged: the expired
entry is neither purged nor is anything persisted, so the expired outcome
is not distinct from not-found. -/
theorem c1_read_expired_indistinct_and_unpurged :
    is_key_expired c1Store.data "k" 10 = true ∧
    read c1Store "k" 10 = (ReadResult.error "Key \x27k\x27 not found.", c1Store) ∧
    read store0 "k" 10 = (ReadResult.error "Key \x27k\x27 not found.", store0) :=
  ⟨rfl, rfl, rfl⟩

/-- Claim C2: the code diverges from the claim. `create` performs no
capacity check at all: whatever the store state, it can only fail with
`KeyExists`, `KeyTooLong` or `ValueTooLarge`, never with the capacity
error `FileSizeLimitExceededError`; the `enforce_file_size_limit` helper
that implements the cleanup-then-recheck ceiling is never invoked. -/
theorem c2_create_never_capacity_error (s : Store) (key : String)
    (value : Json) (ttl : Option Int) (now : Int) :
    create s key value ttl now ≠ Except.error DSError.fileSizeLimitExceeded := by
  unfold create
  split
  · simp
  · split
    · simp
    · split
      · simp
      · simp

/-- Claim C3 counterexample: the claim says a key longer than 32 characters
always fails with `KeyTooLong` even when the key is already present; but on
a store already containing the 33-character key `key33`, `create` fails
with `KeyExists`, because the presence check runs before the length
check. -/
theorem c3_counterexample :
    key33.length = 33 ∧
    create c3Store key33 Json.null none 0 =
      Except.error (DSError.keyExists key33) ∧
    DSError.keyExists key33 ≠ DSError.keyTooLong :=
  ⟨by decide, rfl, by decide⟩

/-- Claim C3 (amended): `create` with a key longer than 32 characters fails
with `KeyTooLong` whenever the key is not already present (the presence
check runs first, so a present over-long key yields `KeyExists` instead),
and a key of exactly 32 characters passes the length check: on the empty
store, `create` with the 32-character `key32` does not fail with
`KeyTooLong`. -/
theorem c3_keyTooLong_when_fresh (s : Store) (key : String) (value : Json)
    (ttl : Option Int) (now : Int)
    (hfresh : List.lookup key s.data = none)
    (hlong : key.length > MAX_KEY_LENGTH) :
    create s key value ttl now = Except.error DSError.keyTooLong ∧
    create store0 key32 Json.null none 0 ≠ Except.error DSError.keyTooLong := by
  constructor
  · simp [create, hfresh, hlong]
  · have h32 : create store0 key32 Json.null none 0 =
        Except.ok { data := [(key32, ⟨Json.null, none⟩)],
                    fs := FS.save fs0 [(key32, ⟨Json.null, none⟩)] } := rfl
    simp [h32]

/-- Claim C3 witness: the amended theorem applied to the empty store and
the 33-character key `key33`. -/
theorem c3_keyTooLong_when_fresh_witness :
    List.lookup key33 store0.data = none ∧ key33.length > MAX_KEY_LENGTH ∧
    (create store0 key33 Json.null none 0 = Except.error DSError.keyTooLong ∧
     create store0 key32 Json.null none 0 ≠ Except.error DSError.keyTooLong) :=
  ⟨rfl, by decide, c3_keyTooLong_when_fresh store0 key33 Json.null none 0 rfl (by decide)⟩

/-- Claim C4 counterexample: the claim says a successful `create` with a
provided ttl stores expiry `now + ttl` for every provided ttl including 0;
but `create` on the empty store with `ttl = 0` at time 100 stores
expiry `None` (Python `0` is falsy), not `100 + 0`. -/
theorem c4_counterexample :
    storedExpiry (create store0 "k" Json.null (some 0) 100) "k" = some none ∧
    some (none : Option Int) ≠ some (some ((100 : Int) + 0)) :=
  ⟨rfl, by decide⟩

/-- Claim C4 (amended): a successful `create` with a provided nonzero ttl
stores expiry `now + ttl`; a provided ttl of 0 is treated like no ttl and
stores expiry `None` (the entry never expires). -/
theorem c4_create_ttl_expiry (s : Store) (key : String) (value : Json)
    (t now : Int)
    (hfresh : List.lookup key s.data = none)
    (hkey : key.length ≤ MAX_KEY_LENGTH)
    (hval : (dumps value).length ≤ MAX_VALUE_SIZE) :
    create s key value (some t) now =
      Except.ok
        { data := s.data ++ [(key, ⟨value, if t == 0 then none else some (now + t)⟩)],
          fs := FS.save s.fs
            (s.data ++ [(key, ⟨value, if t == 0 then none else some (now + t)⟩)]) } := by
  unfold create
  rw [if_neg (by simp [hfresh]), if_neg (Nat.not_lt.mpr hkey),
    if_neg (Nat.not_lt.mpr hval)]
  simp only [Data.set_of_absent _ _ _ hfresh]

/-- Claim C4 witness: the amended theorem applied on the empty store with
ttl 5 at time 100, storing expiry 105. -/
theorem c4_create_ttl_expiry_witness :
    List.lookup "k" store0.data = none ∧
    ("k".length ≤ MAX_KEY_LENGTH) ∧ ((dumps Json.null).length ≤ MAX_VALUE_SIZE) ∧
    create store0 "k" Json.null (some 5) 100 =
      Except.ok
        { data := store0.data ++
            [("k", ⟨Json.null, if (5 : Int) == 0 then none else some ((100 : Int) + 5)⟩)],
          fs := FS.save store0.fs
            (store0.data ++
              [("k", ⟨Json.null, if (5 : Int) == 0 then none else some ((100 : Int) + 5)⟩)]) } :=
  ⟨rfl, by decide, by decide,
    c4_create_ttl_expiry store0 "k" Json.null 5 100 rfl (by decide) (by decide)⟩

/-- Claim C5: an entry whose expiry is `None` never expires; an entry with
expiry `t` is expired exactly when the current time is strictly greater
than `t`; in particular an entry checked exactly at its expiry instant is
still valid. -/
theorem c5_expiry_policy (d : Data) (key : String) (item : Entry) (now : Int)
    (h : List.lookup key d = some item) :
    (item.expiry = none → is_key_expired d key now = false) ∧
    (∀ t, item.expiry = some t → (is_key_expired d key now = true ↔ now > t)) ∧
    (∀ t, item.expiry = some t → is_key_expired d key t = false) := by
  refine ⟨fun hn => ?_, fun t ht => ?_, fun t ht => ?_⟩
  · simp [is_key_expired, h, hn]
  · simp [is_key_expired, h, ht, gt_iff_lt]
  · simp [is_key_expired, h, ht]

/-- Claim C5 witness: the expiry policy applied to a store holding key
`"k"` with expiry 5, checked at time 7. -/
theorem c5_expiry_policy_witness :
    List.lookup "k" ([("k", Entry.mk Json.null (some 5))] : Data) =
      some (Entry.mk Json.null (some 5)) ∧
    (((Entry.mk Json.null (some 5)).expiry = none →
        is_key_expired [("k", Entry.mk Json.null (some 5))] "k" 7 = false) ∧
     (∀ t, (Entry.mk Json.null (some 5)).expiry = some t →
        (is_key_expired [("k", Entry.mk Json.null (some 5))] "k" 7 = true ↔ (7 : Int) > t)) ∧
     (∀ t, (Entry.mk Json.null (some 5)).expiry = some t →
        is_key_expired [("k", Entry.mk Json.null (some 5))] "k" t = false)) :=
  ⟨rfl, c5_expiry_policy [("k", Entry.mk Json.null (some 5))] "k"
    (Entry.mk Json.null (some 5)) 7 rfl⟩

/-- Claim C6: a batch whose pair count exceeds `BATCH_LIMIT` (100) is
rejected wholesale with the batch-limit error, and the store state is
returned unchanged: no key from the batch is written and nothing is
persisted. -/
theorem c6_batch_limit (s : Store) (pairs : List (String × Json))
    (ttl : Option Int) (now : Int) (h : pairs.length > BATCH_LIMIT) :
    batch_create s pairs ttl now =
      (BatchResult.limitError "Batch limit exceeded. Maximum 100 pairs allowed.",
        s) := by
  unfold batch_create
  rw [if_pos h]
  rfl

/-- Claim C6 witness: a batch of 101 distinct keys against the empty
store. -/
theorem c6_batch_limit_witness :
    pairs101.length > BATCH_LIMIT ∧
    batch_create store0 pairs101 none 0 =
      (BatchResult.limitError "Batch limit exceeded. Maximum 100 pairs allowed.",
        store0) :=
  ⟨by decide, c6_batch_limit store0 pairs101 none 0 (by decide)⟩

/-- Claim C7: for a batch of at most 100 pairs, `batch_create` attempts
`create` for every pair without aborting: every pair's key lands either in
the succeeded list or in the per-key error map, the two account for
exactly one outcome per pair, and the overall status is
`"partial_success"` exactly when at least one key failed; in particular a
batch with fresh key `"A"` and already-present key `"B"` yields `"A"`
succeeded, `"B"` mapped to its `KeyExists` message, and status
`"partial_success"`. -/
theorem c7_batch_report (s : Store) (pairs : List (String × Json))
    (ttl : Option Int) (now : Int) (h : pairs.length ≤ BATCH_LIMIT) :
    (∃ st created errors,
      batch_create s pairs ttl now =
        (BatchResult.report (if errors.isEmpty then "success" else "partial_success")
          (if errors.isEmpty then "Batch creation successful."
           else "Batch creation completed with some errors.") created errors, st) ∧
      (∀ p ∈ pairs, p.1 ∈ created ∨ p.1 ∈ List.map Prod.fst errors) ∧
      created.length + errors.length = pairs.length) ∧
    batch_create exStoreB [("A", Json.null), ("B", Json.null)] none 0 =
      (BatchResult.report "partial_success"
        "Batch creation completed with some errors."
        ["A"] [("B", DSError.message (DSError.keyExists "B"))],
       { data := [("B", ⟨Json.null, none⟩), ("A", ⟨Json.null, none⟩)],
         fs := FS.save fs0 [("B", ⟨Json.null, none⟩), ("A", ⟨Json.null, none⟩)] }) := by
  refine ⟨?_, rfl⟩
  obtain ⟨st, cE, eE, heq, hmem, hlen⟩ := batchLoop_spec ttl now pairs s [] []
  refine ⟨st, cE, eE, ?_, hmem, by simpa using hlen⟩
  unfold batch_create
  rw [if_neg (by omega)]
  rw [heq]
  simp only [List.nil_append]
  by_cases he : eE.isEmpty <;> simp [he]

/-- Claim C7 witness: the batch theorem applied to the two-pair `A`/`B`
batch against the store already holding `"B"`. -/
theorem c7_batch_report_witness :
    ([("A", Json.null), ("B", Json.null)] : List (String × Json)).length ≤
      BATCH_LIMIT ∧
    ((∃ st created errors,
      batch_create exStoreB [("A", Json.null), ("B", Json.null)] none 0 =
        (BatchResult.report (if errors.isEmpty then "success" else "partial_success")
          (if errors.isEmpty then "Batch creation successful."
           else "Batch creation completed with some errors.") created errors, st) ∧
      (∀ p ∈ ([("A", Json.null), ("B", Json.null)] : List (String × Json)),
        p.1 ∈ created ∨ p.1 ∈ List.map Prod.fst errors) ∧
      created.length + errors.length =
        ([("A", Json.null), ("B", Json.null)] : List (String × Json)).length) ∧
    batch_create exStoreB [("A", Json.null), ("B", Json.null)] none 0 =
      (BatchResult.report "partial_success"
        "Batch creation completed with some errors."
        ["A"] [("B", DSError.message (DSError.keyExists "B"))],
       { data := [("B", ⟨Json.null, none⟩), ("A", ⟨Json.null, none⟩)],
         fs := FS.save fs0 [("B", ⟨Json.null, none⟩), ("A", ⟨Json.null, none⟩)] })) :=
  ⟨by decide, c7_batch_report exStoreB [("A", Json.null), ("B", Json.null)]
    none 0 (by decide)⟩

/-- Claim C8: loading a backing file whose content fails to parse moves the
original content to the backup path (overwriting any prior backup), resets
to an empty in-memory store, persists the empty store to the original
path, and raises the distinct corrupt-input error `InvalidJSONError`,
leaving the store usable and empty. -/
theorem c8_load_corrupt_recovery (raw : String) (b : Option Doc) :
    load_data { main := some (Doc.invalid raw), backup := b } =
      ([], { main := some (Doc.valid []), backup := some (Doc.invalid raw) },
        some DSError.invalidJSON) := rfl

/-- Claim C9: expiry cleanup is idempotent: running
`cleanup_expired_keys` twice at the same current time produces the same
store state (in-memory dict and persisted file) as running it once. -/
theorem c9_cleanup_idempotent (s : Store) (now : Int) :
    cleanup_expired_keys (cleanup_expired_keys s now) now =
      cleanup_expired_keys s now := by
  simp [cleanup_expired_keys, cleanupData_idem, FS.save]

/-- Claim C10: an expired but not-yet-purged key still counts as present
for `create`: when the key is in the dict with an already-passed expiry,
`create` fails with `KeyExists` (the presence check does not consult
expiry), leaving the old entry in place. -/
theorem c10_create_on_expired_key (s : Store) (key : String) (item : Entry)
    (t : Int) (value : Json) (ttl : Option Int) (now : Int)
    (hmem : List.lookup key s.data = some item)
    (hexp : item.expiry = some t) (ht : t < now) :
    is_key_expired s.data key now = true ∧
    create s key value ttl now = Except.error (DSError.keyExists key) := by
  constructor
  · simp [is_key_expired, hmem, hexp, ht]
  · simp [create, hmem]

/-- Claim C10 witness: `create` on a store whose key `"k"` expired at time
5, attempted at time 10. -/
theorem c10_create_on_expired_key_witness :
    List.lookup "k" c10Store.data = some (Entry.mk Json.null (some 5)) ∧
    (Entry.mk Json.null (some 5)).expiry = some 5 ∧ (5 : Int) < 10 ∧
    (is_key_expired c10Store.data "k" 10 = true ∧
     create c10Store "k" (Json.str "new") none 10 =
       Except.error (DSError.keyExists "k")) :=
  ⟨rfl, rfl, by decide,
    c10_create_on_expired_key c10Store "k" (Entry.mk Json.null (some 5)) 5
      (Json.str "new") none 10 rfl rfl (by decide)⟩

end KVStore
